import Mathlib

/-!
Verification development for the VideoBox repository: a browser video-editing
UI that delegates all media processing to Cloudinary.  The definitions below
are shallow embeddings of the TypeScript source; pure string manipulation is
translated to Lean functions, and the event handlers that mutate React state
become explicit state-transition functions.
-/

/-! ## JavaScript string primitives

The source manipulates URLs with `String.prototype.split`, `includes`,
`replace`, `startsWith` and the truthiness of strings.  These are translated
here with their exact JavaScript semantics (for the non-empty separators the
code uses).  `jsSplitAux` is fuel-indexed so that it is structurally recursive
and kernel-reducible; the fuel is always at least the length of the string, and
each step consumes at least one character. -/

/-- Fuel-indexed worker for JavaScript `split` with a non-empty separator. -/
def jsSplitAux (sep : List Char) : Nat → List Char → List Char → List (List Char)
  | 0, _, acc => [acc.reverse]
  | fuel + 1, s, acc =>
    match s with
    | [] => [acc.reverse]
    | c :: cs =>
      if sep.isPrefixOf (c :: cs) then
        acc.reverse :: jsSplitAux sep fuel ((c :: cs).drop sep.length) []
      else
        jsSplitAux sep fuel cs (c :: acc)

/-- JavaScript `s.split(sep)` for a non-empty separator `sep`. -/
def jsSplit (sep : String) (s : String) : List String :=
  (jsSplitAux sep.data (s.data.length + 1) s.data []).map String.mk

/-- JavaScript `url.split("?")[0]`: everything before the first question mark
(or the whole string when there is none). -/
def jsBeforeQuery (s : String) : String :=
  String.mk (s.data.takeWhile (fun c => c != '?'))

/-- Worker for `jsIncludes`: does `sub` occur as a contiguous run in the
list? -/
def jsIncludesAux (sub : List Char) : List Char → Bool
  | [] => sub.isEmpty
  | c :: cs => sub.isPrefixOf (c :: cs) || jsIncludesAux sub cs

/-- JavaScript `s.includes(sub)`. -/
def jsIncludes (s sub : String) : Bool :=
  jsIncludesAux sub.data s.data

/-- JavaScript `s.startsWith(pre)`. -/
def jsStartsWith (s pre : String) : Bool :=
  pre.data.isPrefixOf s.data

/-- JavaScript `s.replace(pat, repl)` for a non-empty literal pattern:
only the first occurrence is replaced. -/
def jsReplaceFirstAux (pat repl : List Char) : List Char → List Char
  | [] => []
  | c :: cs =>
    if pat.isPrefixOf (c :: cs) then repl ++ (c :: cs).drop pat.length
    else c :: jsReplaceFirstAux pat repl cs

/-- JavaScript `s.replace(pat, repl)` (first occurrence only). -/
def jsReplaceFirst (s pat repl : String) : String :=
  String.mk (jsReplaceFirstAux pat.data repl.data s.data)

/-- Truthiness of a JavaScript string-or-nullish value: `null`, `undefined`
and the empty string are falsy. -/
def jsFalsyOpt : Option String → Bool
  | none => true
  | some s => s == ""

/-- JavaScript `a || b` on string-or-nullish values: `a` when truthy,
otherwise `b`. -/
def jsOrStr (a b : Option String) : Option String :=
  if jsFalsyOpt a then b else a

namespace SimpleEditor

/-! ## The standalone editor (`CloudinaryVideoEditor` in `src/unnamed/part_000`)

This component keeps a two-part transformation state (border and colour
adjustments), derives a transformed Cloudinary URL from it, and reconciles the
preview `<video>` element against that URL on every transformation change and
every tab change. -/

/-- Border part of the transformation state (`Transformations.border`). -/
structure Border where
  width : Int
  color : String
  style : String
  deriving Repr, DecidableEq

/-- Colour-adjustment part of the transformation state
(`Transformations.adjustments`). -/
structure Adjustments where
  brightness : Int
  contrast : Int
  saturation : Int
  sepia : Int
  deriving Repr, DecidableEq

/-- The `Transformations` state of the standalone editor. -/
structure Transformations where
  border : Border
  adjustments : Adjustments
  deriving Repr, DecidableEq

/-- Initial transformation state of the component. -/
def initialTransformations : Transformations :=
  { border := { width := 5, color := "white", style := "solid" }
    adjustments := { brightness := 0, contrast := 0, saturation := 0, sepia := 0 } }

/-- Condition `hasBorder` computed by the component: border width > 0. -/
def hasBorder (t : Transformations) : Bool :=
  0 < t.border.width

/-- Condition `hasAdjustments` computed by the component: some adjustment is
non-zero. -/
def hasAdjustments (t : Transformations) : Bool :=
  t.adjustments.brightness != 0 || t.adjustments.contrast != 0 ||
    t.adjustments.saturation != 0 || t.adjustments.sepia != 0

/-- The `transformedVideoUrl` memo of the standalone editor: builds the
comma-joined transformation string and splices it between the base resource
URL and the public id; falls back to `initialVideoUrl` when there is no public
id / cloud name or no transformation is applied. -/
def transformedVideoUrl (t : Transformations) (cloudinaryPublicId : Option String)
    (cloudName : String) (initialVideoUrl : String) : String :=
  if jsFalsyOpt cloudinaryPublicId || cloudName == "" then initialVideoUrl
  else if !hasBorder t && !hasAdjustments t then initialVideoUrl
  else
    let transformationParts :=
      (if hasBorder t then
        ["bo_" ++ toString t.border.width ++ "px_" ++ t.border.style ++ "_" ++
          jsReplaceFirst t.border.color "#" ""]
      else []) ++
      (if hasAdjustments t then
        (if t.adjustments.brightness != 0 then
          ["e_brightness:" ++ toString t.adjustments.brightness] else []) ++
        (if t.adjustments.contrast != 0 then
          ["e_contrast:" ++ toString t.adjustments.contrast] else []) ++
        (if t.adjustments.saturation != 0 then
          ["e_saturation:" ++ toString t.adjustments.saturation] else []) ++
        (if t.adjustments.sepia != 0 then
          ["e_sepia:" ++ toString t.adjustments.sepia] else [])
      else [])
    let transformationString := String.intercalate "," transformationParts
    let baseUrl := "https://res.cloudinary.com/" ++ cloudName ++ "/video/upload"
    baseUrl ++ "/" ++ transformationString ++ "/" ++
      (cloudinaryPublicId.getD "")

/-- The preview `<video>` element, reduced to the data the reconciler reads
and writes: its current source and how many times `load()` has run. -/
structure VideoElem where
  src : String
  loadCount : Nat
  deriving Repr, DecidableEq

/-- Body of the `useEffect` that runs on every transformation change: pick the
original URL when no transformation is applied and the transformed URL
otherwise, and tear down / reload the element only when that differs from the
element's current source. -/
def reconcileVideo (t : Transformations) (pid : Option String)
    (cloudName initialVideoUrl : String) (video : VideoElem) : VideoElem :=
  let urlToUse :=
    if !hasBorder t && !hasAdjustments t then initialVideoUrl
    else transformedVideoUrl t pid cloudName initialVideoUrl
  if video.src != urlToUse then
    { src := urlToUse, loadCount := video.loadCount + 1 }
  else video

/-- Video-element part of `handleTabChange`: the component repeats the same
reconciliation logic verbatim when the active tab changes. -/
def handleTabChangeVideo (t : Transformations) (pid : Option String)
    (cloudName initialVideoUrl : String) (video : VideoElem) : VideoElem :=
  let urlToUse :=
    if !hasBorder t && !hasAdjustments t then initialVideoUrl
    else transformedVideoUrl t pid cloudName initialVideoUrl
  if video.src != urlToUse then
    { src := urlToUse, loadCount := video.loadCount + 1 }
  else video

end SimpleEditor

namespace SimpleEditor

/-- Claim-side transformation-part list for C2: a border entry when the border
width is positive, then one entry per non-zero adjustment, in the fixed order
brightness, contrast, saturation, sepia. -/
def claimC2Parts (t : Transformations) : List String :=
  (if 0 < t.border.width then
    ["bo_" ++ toString t.border.width ++ "px_" ++ t.border.style ++ "_" ++
      jsReplaceFirst t.border.color "#" ""]
  else []) ++
  (if t.adjustments.brightness ≠ 0 then
    ["e_brightness:" ++ toString t.adjustments.brightness] else []) ++
  (if t.adjustments.contrast ≠ 0 then
    ["e_contrast:" ++ toString t.adjustments.contrast] else []) ++
  (if t.adjustments.saturation ≠ 0 then
    ["e_saturation:" ++ toString t.adjustments.saturation] else []) ++
  (if t.adjustments.sepia ≠ 0 then
    ["e_sepia:" ++ toString t.adjustments.sepia] else [])

/-- Claim-side URL for C2: the base resource URL followed by the comma-joined
parts and the public id, except that the state with border width 0 and all
four adjustments 0 yields the initial video URL unchanged. -/
def claimC2Url (t : Transformations) (publicId cloudName initialVideoUrl : String) : String :=
  if t.border.width = 0 ∧ t.adjustments.brightness = 0 ∧ t.adjustments.contrast = 0 ∧
      t.adjustments.saturation = 0 ∧ t.adjustments.sepia = 0 then
    initialVideoUrl
  else
    "https://res.cloudinary.com/" ++ cloudName ++ "/video/upload" ++ "/" ++
      String.intercalate "," (claimC2Parts t) ++ "/" ++ publicId

end SimpleEditor


namespace CloudinaryDebug

/-! ## The Cloudinary debug helpers (`src/lib/cloudinaryDebug`)

`parseCloudinaryUrl` delegates the actual URL parsing to the browser's `URL`
constructor, which is outside this repository; that primitive is therefore a
parameter `urlParse`, returning `none` exactly when `new URL(url)` throws.
Everything downstream of it is translated from the source. -/

/-- The fields of a browser `URL` object that `parseCloudinaryUrl` reads. -/
structure URLRecord where
  host : String
  protocol : String
  pathname : String
  search : String
  deriving Repr, DecidableEq

/-- Components the source extracts from a Cloudinary URL. -/
structure CloudinaryUrlInfo where
  url : String
  host : String
  protocol : String
  resourceType : String
  deliveryType : String
  version : String
  transformations : String
  queryParams : String
  pathParts : List String
  deriving Repr, DecidableEq

/-- Test of the regex `/v\d+/`: the string contains a `v` immediately
followed by a digit. -/
def hasVersionDigit : List Char → Bool
  | [] => false
  | [_] => false
  | a :: b :: rest => (a == 'v' && b.isDigit) || hasVersionDigit (b :: rest)

/-- `parseCloudinaryUrl`: on parser failure the source catches the exception
and returns an object carrying an `error` key, modelled as `none`; otherwise
all extracted components. -/
def parseCloudinaryUrl (urlParse : String → Option URLRecord)
    (url : String) : Option CloudinaryUrlInfo :=
  match urlParse url with
  | none => none
  | some parsedUrl =>
    let pathParts := jsSplit "/" parsedUrl.pathname
    let resourceTypeIndex := pathParts.findIdx? (fun part =>
      part == "video" || part == "image" || part == "raw" || part == "auto")
    let resourceType := match resourceTypeIndex with
      | some i => pathParts.getD i ""
      | none => "unknown"
    let deliveryType := match resourceTypeIndex with
      | some i => if i + 1 < pathParts.length then pathParts.getD (i + 1) "" else "unknown"
      | none => "unknown"
    let versionPart := pathParts.find? (fun part => hasVersionDigit part.data)
    let version := versionPart.getD "none"
    let transformations := String.intercalate "/"
      ((jsSplit "/" parsedUrl.pathname).filter
        (fun part => jsIncludes part "," || jsIncludes part "_"))
    some { url := url, host := parsedUrl.host, protocol := parsedUrl.protocol,
           resourceType := resourceType, deliveryType := deliveryType,
           version := version, transformations := transformations,
           queryParams := parsedUrl.search, pathParts := pathParts }

/-- `generateAlternativeUrls`: empty when the URL does not parse, otherwise
the fixed list of eight fallback URLs built on the query-free base. -/
def generateAlternativeUrls (urlParse : String → Option URLRecord)
    (url : String) : List String :=
  match parseCloudinaryUrl urlParse url with
  | none => []
  | some _ =>
    let baseUrl := jsBeforeQuery url
    [ baseUrl ++ "?f_mp4,vc_h264,vc_auto,q_auto:low,fl_progressive",
      baseUrl ++ "?f_mp4,vc_h264,w_640,h_360,q_auto:low,fl_progressive",
      baseUrl ++ "?f_mp4,vc_h264,w_480,h_270,q_auto:low,fl_progressive",
      baseUrl ++ "?f_mp4,vc_h264,q_auto:low",
      baseUrl ++ "?f_mp4,vc_h264,q_60,fl_progressive",
      baseUrl ++ "?f_mp4,vc_h264,w_640,fl_progressive",
      baseUrl ++ "?f_auto,q_auto:low",
      baseUrl ++ "?f_webm,vc_vp9,q_auto:low" ]

end CloudinaryDebug


namespace Editor

/-! ## The main editor (`src/src/components/CloudinaryVideoEditor.tsx`)

The transformation state, the `@cloudinary/url-gen` action chain of
`getTransformedVideoUrl`, the memoised `transformedVideoUrl`, the upload
validation, and the event handlers that mutate the component state. -/

/-- `VideoTransformations.border`. -/
structure BorderState where
  width : Int
  color : String
  radius : Int
  deriving Repr, DecidableEq

/-- Resize mode union type `"fill" | "scale" | "crop"`. -/
inductive ResizeMode where
  | fill
  | scale
  | crop
  deriving Repr, DecidableEq

/-- `VideoTransformations.resize`. -/
structure ResizeState where
  width : Int
  height : Int
  mode : ResizeMode
  deriving Repr, DecidableEq

/-- `VideoTransformations.adjust`. -/
structure AdjustState where
  brightness : Int
  contrast : Int
  saturation : Int
  sepia : Int
  grayscale : Bool
  deriving Repr, DecidableEq

/-- The nine text-overlay positions. -/
inductive TextPosition where
  | north
  | south
  | east
  | west
  | center
  | north_east
  | north_west
  | south_east
  | south_west
  deriving Repr, DecidableEq

/-- The compass gravity string the position switch passes to the SDK. -/
def TextPosition.gravity : TextPosition → String
  | .north => "north"
  | .south => "south"
  | .east => "east"
  | .west => "west"
  | .center => "center"
  | .north_east => "north_east"
  | .north_west => "north_west"
  | .south_east => "south_east"
  | .south_west => "south_west"

/-- `VideoTransformations.text`. -/
structure TextState where
  enabled : Bool
  content : String
  position : TextPosition
  color : String
  size : Int
  fontFamily : String
  deriving Repr, DecidableEq

/-- `VideoTransformations.trim`; offsets are rational to model the JS number
values the sliders produce. -/
structure TrimState where
  enabled : Bool
  startSeconds : Rat
  endSeconds : Rat
  deriving Repr, DecidableEq

/-- The full `VideoTransformations` state. -/
structure VideoTransformations where
  border : BorderState
  resize : ResizeState
  adjust : AdjustState
  text : TextState
  trim : TrimState
  deriving Repr, DecidableEq

/-- Initial transformation state of the component. -/
def defaultTransformations : VideoTransformations :=
  { border := { width := 4, color := "#ffffff", radius := 0 }
    resize := { width := 1920, height := 1080, mode := .fill }
    adjust := { brightness := 0, contrast := 0, saturation := 0, sepia := 0,
                grayscale := false }
    text := { enabled := false, content := "Sample Text", position := .south,
              color := "#ffffff", size := 40, fontFamily := "Arial" }
    trim := { enabled := false, startSeconds := 0, endSeconds := 10 } }

/-- One chained `@cloudinary/url-gen` action of `getTransformedVideoUrl`.
`rotateByAngle` is the rotation action (`a_<angle>`) the Cloudinary
transformation grammar offers; it is included so that its absence from the
builder can be stated. -/
inductive CldAction where
  | border (value : String)
  | roundCorners (radius : Int)
  | resizeFill (width height : Int)
  | resizeScale (width height : Int)
  | resizeCrop (width height : Int)
  | adjustBrightness (level : Int)
  | adjustContrast (level : Int)
  | adjustSaturation (level : Int)
  | effectSepia (level : Int)
  | effectGrayscale
  | overlayText (content fontFamily : String) (size : Int) (color gravity : String)
  | videoEditTrim
  | deliveryFormat (fmt : String)
  | deliveryQuality (q : String)
  | rotateByAngle (angle : Int)
  deriving Repr, DecidableEq

/-- The action chain `getTransformedVideoUrl` builds, in source order:
border, corner radius, resize (by mode), the three adjustments, sepia,
grayscale, text overlay, trim, then the forced mp4 format and auto quality.
The source guards the trim action on the clamped range being non-empty and
calls `trim(start, end)`, but the SDK's `trim()` takes no positional
arguments, so the offsets are silently discarded and the added trim action
carries no qualifiers. -/
def buildActions (t : VideoTransformations) (videoDuration : Rat) : List CldAction :=
  (if 0 < t.border.width then
    [.border (toString t.border.width ++ "px_solid_" ++
      jsReplaceFirst t.border.color "#" "")]
  else []) ++
  (if 0 < t.border.radius then [.roundCorners t.border.radius] else []) ++
  (match t.resize.mode with
    | .fill => [.resizeFill t.resize.width t.resize.height]
    | .scale => [.resizeScale t.resize.width t.resize.height]
    | .crop => [.resizeCrop t.resize.width t.resize.height]) ++
  (if t.adjust.brightness ≠ 0 then [.adjustBrightness t.adjust.brightness] else []) ++
  (if t.adjust.contrast ≠ 0 then [.adjustContrast t.adjust.contrast] else []) ++
  (if t.adjust.saturation ≠ 0 then [.adjustSaturation t.adjust.saturation] else []) ++
  (if t.adjust.sepia ≠ 0 then [.effectSepia t.adjust.sepia] else []) ++
  (if t.adjust.grayscale then [.effectGrayscale] else []) ++
  (if t.text.enabled ∧ t.text.content ≠ "" then
    [.overlayText t.text.content t.text.fontFamily t.text.size
      (jsReplaceFirst t.text.color "#" "") t.text.position.gravity]
  else []) ++
  (if t.trim.enabled ∧ 0 < videoDuration then
    (let startO := max 0 t.trim.startSeconds
     let endO := min videoDuration t.trim.endSeconds
     if startO < endO then [.videoEditTrim] else [])
  else []) ++
  [.deliveryFormat "mp4", .deliveryQuality "auto"]

/-- Percent-encoding of overlay text content (spaces only; the concrete
states exercised here contain no other reserved characters). -/
def pctEncode (s : String) : String :=
  String.join (s.data.map (fun c => if c = ' ' then "%20" else String.mk [c]))

/-- Serialization of one action into the Cloudinary URL transformation
grammar the SDK emits.  The source passes `border` a raw string, which the
SDK adds verbatim (a `RawAction`, no `bo_` prefix), and the qualifier-less
trim action contributes no parameter text. -/
def CldAction.serialize : CldAction → String
  | .border v => v
  | .roundCorners r => "r_" ++ toString r
  | .resizeFill w h => "c_fill,h_" ++ toString h ++ ",w_" ++ toString w
  | .resizeScale w h => "c_scale,h_" ++ toString h ++ ",w_" ++ toString w
  | .resizeCrop w h => "c_crop,h_" ++ toString h ++ ",w_" ++ toString w
  | .adjustBrightness l => "e_brightness:" ++ toString l
  | .adjustContrast l => "e_contrast:" ++ toString l
  | .adjustSaturation l => "e_saturation:" ++ toString l
  | .effectSepia l => "e_sepia:" ++ toString l
  | .effectGrayscale => "e_grayscale"
  | .overlayText content font size color grav =>
      "co_rgb:" ++ color ++ ",l_text:" ++ font ++ "_" ++ toString size ++
        "_bold:" ++ pctEncode content ++ "/fl_layer_apply,g_" ++ grav
  | .videoEditTrim => ""
  | .deliveryFormat f => "f_" ++ f
  | .deliveryQuality q => "q_" ++ q
  | .rotateByAngle a => "a_" ++ toString a

/-- `video.toURL()`: the base resource URL, the slash-joined serialized
actions, and the public id.  (The SDK build may additionally append a
constant analytics query token; it carries no transformation and is
omitted.) -/
def toURL (cloudName publicId : String) (actions : List CldAction) : String :=
  "https://res.cloudinary.com/" ++ cloudName ++ "/video/upload/" ++
    String.intercalate "/" (actions.map CldAction.serialize) ++ "/" ++ publicId

/-- `getTransformedVideoUrl`: falls back to the stored `cloudinaryUrl` when
the public id is falsy (the memoised `cld` instance the second guard tests is
always constructed, hence always truthy), otherwise serializes the action
chain and appends the cache-busting suffix read from the mount-time
`stableTimestampRef`. -/
def getTransformedVideoUrl (t : VideoTransformations)
    (cloudinaryPublicId cloudinaryUrl : Option String) (cloudName : String)
    (videoDuration : Rat) (stableTimestamp : Nat) : Option String :=
  match cloudinaryPublicId with
  | none => cloudinaryUrl
  | some p =>
    if p == "" then cloudinaryUrl
    else some (toURL cloudName p (buildActions t videoDuration) ++
      "&_t=" ++ toString stableTimestamp)

/-- The memoised `transformedVideoUrl`: returns the stored URL when the
public id or URL is falsy; for URLs containing `res.cloudinary.com` it
returns the query-free stored URL with only the cache-busting timestamp (the
"direct playback" path); only otherwise does it build the transformation
URL. -/
def transformedVideoUrl (t : VideoTransformations)
    (cloudinaryPublicId cloudinaryUrl : Option String) (cloudName : String)
    (videoDuration : Rat) (stableTimestamp : Nat) : Option String :=
  if jsFalsyOpt cloudinaryPublicId || jsFalsyOpt cloudinaryUrl then cloudinaryUrl
  else if !jsFalsyOpt cloudinaryUrl &&
      jsIncludes (cloudinaryUrl.getD "") "res.cloudinary.com" then
    some (jsBeforeQuery (cloudinaryUrl.getD "") ++ "?_t=" ++ toString stableTimestamp)
  else getTransformedVideoUrl t cloudinaryPublicId cloudinaryUrl cloudName
    videoDuration stableTimestamp

/-- The `src` fallback chain of the edit-tab `<video>` element:
`cloudinaryUrl || cachedVideoUrl || transformedVideoUrl || undefined`. -/
def editVideoSrc (cloudinaryUrl cachedVideoUrl transformedUrl : Option String) :
    Option String :=
  jsOrStr cloudinaryUrl (jsOrStr cachedVideoUrl (jsOrStr transformedUrl none))

/-- The URL the "Download Edited Video" button opens:
`transformedVideoUrl || cachedVideoUrl || cloudinaryUrl || ""`. -/
def previewDownloadUrl (transformedUrl cachedVideoUrl cloudinaryUrl : Option String) :
    String :=
  (jsOrStr transformedUrl (jsOrStr cachedVideoUrl
    (jsOrStr cloudinaryUrl (some "")))).getD ""

end Editor

/-- The fields of a selected `File` that the upload validation reads. -/
structure UploadFile where
  name : String
  size : Nat
  type : String
  deriving Repr, DecidableEq

/-- Observable outcome of invoking an upload function from the idle state
(`isUploading` false, no pending request): whether the HTTP request is sent
and the resulting flags. -/
structure UploadOutcome where
  sendsRequest : Bool
  isUploading : Bool
  uploadProgress : Nat
  uploadError : Option String
  deriving Repr, DecidableEq

namespace Editor

/-- `uploadToCloudinary` of the main editor up to the point the XHR is sent:
one combined presence check on the file and the cloud configuration, then the
100 MB size check, then the `video/` MIME-type check; any failure sets the
error and returns before the request. -/
def uploadToCloudinary (videoFile : Option UploadFile)
    (cloudName apiKey : String) : UploadOutcome :=
  match videoFile with
  | none =>
    { sendsRequest := false, isUploading := false, uploadProgress := 0,
      uploadError := some "Missing video file or Cloudinary configuration" }
  | some f =>
    if cloudName == "" || apiKey == "" then
      { sendsRequest := false, isUploading := false, uploadProgress := 0,
        uploadError := some "Missing video file or Cloudinary configuration" }
    else if 100 * 1024 * 1024 < f.size then
      { sendsRequest := false, isUploading := false, uploadProgress := 0,
        uploadError := some "File size exceeds the 100MB limit" }
    else if !(jsStartsWith f.type "video/") then
      { sendsRequest := false, isUploading := false, uploadProgress := 0,
        uploadError := some "Please upload a valid video file" }
    else
      { sendsRequest := true, isUploading := true, uploadProgress := 0,
        uploadError := none }

/-- The component state touched by the playback-error and post-upload
handlers. -/
structure EditorState where
  activeTab : String
  cachedVideoUrl : Option String
  cloudinaryUrl : Option String
  videoLoadAttempts : Nat
  videoLoadError : Option String
  debugMode : Bool
  videoSrc : Option String
  videoLoadCount : Nat
  deriving Repr, DecidableEq

/-- Base URL the edit-tab error handler reconstructs before retrying: when
the current URL contains `/upload/` it rebuilds a direct URL from the first
dot-separated label after the `//` scheme separator and the last path segment
(query-stripped) after `/upload/`; the fallback to the query-free current URL
covers both the explicit else branch and the catch that fires when the part
before `/upload/` has no `//` (the only access in the block that can
throw). -/
def retryBaseUrl (currentUrl : String) : String :=
  let urlParts := jsSplit "/upload/" currentUrl
  if 2 ≤ urlParts.length then
    let schemeParts := jsSplit "//" (urlParts.getD 0 "")
    if 2 ≤ schemeParts.length then
      let cloudName := (jsSplit "." (schemeParts.getD 1 "")).getD 0 ""
      let pathParts := jsSplit "/" (urlParts.getD 1 "")
      let publicIdPart := jsBeforeQuery (pathParts.getD (pathParts.length - 1) "")
      "https://res.cloudinary.com/" ++ cloudName ++ "/video/upload/" ++ publicIdPart
    else jsBeforeQuery currentUrl
  else jsBeforeQuery currentUrl

/-- The fixed five-element retry list built by the edit-tab error handler. -/
def formatUrls (base : String) (stableTimestamp : Nat) : List String :=
  [ base,
    base ++ "?_t=" ++ toString stableTimestamp,
    base ++ "?f_mp4",
    base ++ "?f_auto",
    base ++ "?f_mp4,q_auto:low" ]

/-- The edit-tab `<video>` `onError` handler: record the error message,
increment the attempt counter, and, when the counter (as captured by the
render closure) is below 5 and a source URL exists, reload the element with
`formatUrls[attempts % 5]` built on `retryBaseUrl`; once the captured counter
has reached 5, enable debug mode instead. -/
def onErrorEditTab (errorMessage : String) (stableTimestamp : Nat)
    (st : EditorState) : EditorState :=
  let st1 := { st with videoLoadError := some errorMessage,
                       videoLoadAttempts := st.videoLoadAttempts + 1 }
  if st.videoLoadAttempts < 5 ∧
      jsFalsyOpt (jsOrStr st.cachedVideoUrl st.cloudinaryUrl) = false then
    let currentUrl := (jsOrStr st.cachedVideoUrl st.cloudinaryUrl).getD ""
    let urls := formatUrls (retryBaseUrl currentUrl) stableTimestamp
    let retryUrl := urls.getD (st.videoLoadAttempts % urls.length) ""
    { st1 with videoSrc := some retryUrl, cachedVideoUrl := some retryUrl,
               videoLoadCount := st1.videoLoadCount + 1 }
  else if 5 ≤ st.videoLoadAttempts then
    { st1 with debugMode := true }
  else st1

/-- The continuation `uploadToCloudinary` runs after a successful upload,
when the `checkCloudinaryUrl` probe of the timestamped secure URL settles.
`probe` is `some (status, cloudinaryError)` when the promise resolves (the
probe itself maps network failures to status 0) and `none` when it rejects:
a 2xx status caches the timestamped secure URL, clears the error state and
switches to the edit tab, reloading the element with the secure URL; any
other status enables debug mode, caches the first generated alternative URL
(or the secure URL when there are none) and still switches to the edit tab;
a rejected probe caches the secure URL and switches to the edit tab. -/
def handleUploadProbe (urlParse : String → Option CloudinaryDebug.URLRecord)
    (secureUrl : String) (stableTimestamp : Nat) (probe : Option (Nat × String))
    (st : EditorState) : EditorState :=
  match probe with
  | some (status, cloudinaryError) =>
    if 200 ≤ status ∧ status < 300 then
      { st with cachedVideoUrl := some (secureUrl ++ "?_t=" ++ toString stableTimestamp),
                videoLoadError := none, videoLoadAttempts := 0,
                activeTab := "edit",
                videoSrc := some secureUrl,
                videoLoadCount := st.videoLoadCount + 1 }
    else
      let alternatives := CloudinaryDebug.generateAlternativeUrls urlParse secureUrl
      { st with debugMode := true,
                videoLoadError := some ("Resource not accessible (Status: " ++
                  toString status ++ "). " ++ cloudinaryError),
                cachedVideoUrl := some (match alternatives with
                  | a :: _ => a
                  | [] => secureUrl),
                activeTab := "edit" }
  | none =>
    { st with cachedVideoUrl := some secureUrl, activeTab := "edit" }

end Editor

namespace UploadHelper

/-- `uploadToCloudinary` of the standalone `CloudinaryUploadHelper`
component up to the point the XHR is sent: a presence check on the file and
the cloud name and the 100 MB size check; there is no MIME-type check in this
component (its file input accepts `video/*,image/*`). -/
def uploadToCloudinary (videoFile : Option UploadFile) (cloudName : String) :
    UploadOutcome :=
  match videoFile with
  | none =>
    { sendsRequest := false, isUploading := false, uploadProgress := 0,
      uploadError := some "Missing video file or Cloudinary configuration" }
  | some f =>
    if cloudName == "" then
      { sendsRequest := false, isUploading := false, uploadProgress := 0,
        uploadError := some "Missing video file or Cloudinary configuration" }
    else if 100 * 1024 * 1024 < f.size then
      { sendsRequest := false, isUploading := false, uploadProgress := 0,
        uploadError := some "File size exceeds the 100MB limit" }
    else
      { sendsRequest := true, isUploading := true, uploadProgress := 0,
        uploadError := none }

end UploadHelper

namespace Editor

/-- A transformation state exercising every recorded edit parameter at once:
border with rounded corners, crop resize, all four colour adjustments plus
grayscale, a text overlay, and an enabled trim range. -/
def demoTransformations : VideoTransformations :=
  { border := { width := 3, color := "#00ff00", radius := 12 }
    resize := { width := 640, height := 360, mode := .crop }
    adjust := { brightness := 10, contrast := -5, saturation := 20, sepia := 30,
                grayscale := true }
    text := { enabled := true, content := "Hello World", position := .south,
              color := "#ff0000", size := 40, fontFamily := "Arial" }
    trim := { enabled := true, startSeconds := 1, endSeconds := 5 } }

end Editor

namespace SimpleEditor

/-- When no adjustment is non-zero the four adjustment entries vanish, so the
guard the component puts around them does not change the part list. -/
lemma adjParts_guard_eq (t : Transformations) :
    (if hasAdjustments t then
        (if t.adjustments.brightness != 0 then
          ["e_brightness:" ++ toString t.adjustments.brightness] else []) ++
        (if t.adjustments.contrast != 0 then
          ["e_contrast:" ++ toString t.adjustments.contrast] else []) ++
        (if t.adjustments.saturation != 0 then
          ["e_saturation:" ++ toString t.adjustments.saturation] else []) ++
        (if t.adjustments.sepia != 0 then
          ["e_sepia:" ++ toString t.adjustments.sepia] else [])
      else ([] : List String)) =
      (if t.adjustments.brightness ≠ 0 then
        ["e_brightness:" ++ toString t.adjustments.brightness] else []) ++
      (if t.adjustments.contrast ≠ 0 then
        ["e_contrast:" ++ toString t.adjustments.contrast] else []) ++
      (if t.adjustments.saturation ≠ 0 then
        ["e_saturation:" ++ toString t.adjustments.saturation] else []) ++
      (if t.adjustments.sepia ≠ 0 then
        ["e_sepia:" ++ toString t.adjustments.sepia] else []) := by
  by_cases h : hasAdjustments t
  · simp [h, bne_iff_ne]
  · have h' : t.adjustments.brightness = 0 ∧ t.adjustments.contrast = 0 ∧
        t.adjustments.saturation = 0 ∧ t.adjustments.sepia = 0 := by
      simpa [hasAdjustments, and_assoc] using h
    simp [h, h'.1, h'.2.1, h'.2.2.1, h'.2.2.2]

/-- The no-transformation test of the standalone editor coincides with
"border width is 0 and all four adjustments are 0" whenever the border width
is non-negative. -/
lemma noTransform_iff (t : Transformations) (hw : 0 ≤ t.border.width) :
    (!hasBorder t && !hasAdjustments t) = true ↔
      (t.border.width = 0 ∧ t.adjustments.brightness = 0 ∧
        t.adjustments.contrast = 0 ∧ t.adjustments.saturation = 0 ∧
        t.adjustments.sepia = 0) := by
  simp only [hasBorder, hasAdjustments, Bool.and_eq_true, Bool.not_eq_true',
    Bool.or_eq_false_iff, bne_eq_false_iff_eq, decide_eq_false_iff_not, not_lt]
  omega

end SimpleEditor

/-- C2: for every transformation state with a present (truthy) public id and
cloud name and a non-negative border width, the standalone URL builder returns
exactly the base resource URL with the comma-joined ordered parameter
sequence (border entry when width is positive, then the non-zero adjustments
in the fixed order), and returns the initial video URL unchanged when the
border width is 0 and all four adjustments are 0. -/
theorem C2_standalone_url_builder (t : SimpleEditor.Transformations)
    (p cn init : String) (hp : p ≠ "") (hcn : cn ≠ "")
    (hw : 0 ≤ t.border.width) :
    SimpleEditor.transformedVideoUrl t (some p) cn init
      = SimpleEditor.claimC2Url t p cn init := by
  have hp' : (p == "") = false := by simpa using hp
  have hcn' : (cn == "") = false := by simpa using hcn
  unfold SimpleEditor.transformedVideoUrl SimpleEditor.claimC2Url
  rw [SimpleEditor.claimC2Parts]
  simp only [jsFalsyOpt, hp', hcn', Bool.or_self, Bool.false_or, Bool.or_false,
    if_false, Option.getD_some, SimpleEditor.adjParts_guard_eq]
  by_cases hb : SimpleEditor.hasBorder t
  · have hb' : (0 : Int) < t.border.width := by simpa [SimpleEditor.hasBorder] using hb
    have hcond : ¬ (t.border.width = 0 ∧ t.adjustments.brightness = 0 ∧
        t.adjustments.contrast = 0 ∧ t.adjustments.saturation = 0 ∧
        t.adjustments.sepia = 0) := by
      intro hc
      omega
    simp [hb, hb', hcond]
  · have hb' : t.border.width = 0 := by
      have : ¬ (0 : Int) < t.border.width := by simpa [SimpleEditor.hasBorder] using hb
      omega
    by_cases ha : SimpleEditor.hasAdjustments t
    · have hcond : ¬ (t.border.width = 0 ∧ t.adjustments.brightness = 0 ∧
          t.adjustments.contrast = 0 ∧ t.adjustments.saturation = 0 ∧
          t.adjustments.sepia = 0) := by
        intro hc
        simp [SimpleEditor.hasAdjustments, hc.2.1, hc.2.2.1, hc.2.2.2.1, hc.2.2.2.2] at ha
      have hcond2 : ¬ (t.adjustments.brightness = 0 ∧ t.adjustments.contrast = 0 ∧
          t.adjustments.saturation = 0 ∧ t.adjustments.sepia = 0) :=
        fun hc => hcond ⟨hb', hc⟩
      simp [hb, ha, hb', hcond2]
    · have ha' : t.adjustments.brightness = 0 ∧ t.adjustments.contrast = 0 ∧
          t.adjustments.saturation = 0 ∧ t.adjustments.sepia = 0 := by
        simpa [SimpleEditor.hasAdjustments, and_assoc] using ha
      simp [hb, ha, hb', ha'.1, ha'.2.1, ha'.2.2.1, ha'.2.2.2]

/-- Witness for C2 at a concrete input: border width 5, brightness 10,
sepia 0 with public id and cloud name present. -/
theorem C2_standalone_url_builder_witness :
    SimpleEditor.transformedVideoUrl
        { border := { width := 5, color := "#a1b2c3", style := "solid" },
          adjustments := { brightness := 10, contrast := 0, saturation := -5, sepia := 0 } }
        (some "vid1") "demo" "init"
      = SimpleEditor.claimC2Url
        { border := { width := 5, color := "#a1b2c3", style := "solid" },
          adjustments := { brightness := 10, contrast := 0, saturation := -5, sepia := 0 } }
        "vid1" "demo" "init" :=
  C2_standalone_url_builder _ "vid1" "demo" "init"
    (by decide) (by decide) (by decide)


namespace SimpleEditor

/-- Claim-side URL for C3: the playback reconciler should use the original
untransformed URL when border width is 0 and all adjustments are 0, and the
transformed URL otherwise. -/
def claimC3Url (t : Transformations) (pid : Option String)
    (cloudName initialVideoUrl : String) : String :=
  if t.border.width = 0 ∧ t.adjustments.brightness = 0 ∧ t.adjustments.contrast = 0 ∧
      t.adjustments.saturation = 0 ∧ t.adjustments.sepia = 0 then
    initialVideoUrl
  else transformedVideoUrl t pid cloudName initialVideoUrl

end SimpleEditor

namespace VideoPlayer

/-- The `cleanUrl` helper of `VideoPlayer.tsx`: strip the query string and,
for a non-empty URL, append the fixed format parameters and a cache-busting
timestamp (the `Date.now()` value is passed explicitly). -/
def cleanUrl (url : String) (now : Nat) : String :=
  if url == "" then ""
  else jsBeforeQuery url ++ "?f_mp4,vc_h264,q_auto&_t=" ++ toString now

end VideoPlayer

namespace FallbackVideoPlayer

/-- The `getFormattedUrl` helper of the fallback player
(`src/unnamed/part_001`): strip the query string and, for a non-empty URL,
append low-quality progressive format parameters and a timestamp. -/
def getFormattedUrl (url : String) (now : Nat) : String :=
  if url == "" then ""
  else jsBeforeQuery url ++ "?f_mp4,vc_h264,q_40,fl_progressive&_t=" ++ toString now

end FallbackVideoPlayer



/-- C3: on every parameter change and every tab change the reconciler computes
the URL to use (original when border width is 0 and all adjustments are 0,
transformed otherwise) and reloads the media element exactly when that URL
differs from the element's current source, leaving the element untouched when
they agree; the tab-change handler performs the same reconciliation. -/
theorem C3_reload_vs_restyle (t : SimpleEditor.Transformations)
    (pid : Option String) (cn init : String) (v : SimpleEditor.VideoElem)
    (hw : 0 ≤ t.border.width) :
    SimpleEditor.reconcileVideo t pid cn init v =
      (if v.src = SimpleEditor.claimC3Url t pid cn init then v
       else { src := SimpleEditor.claimC3Url t pid cn init,
              loadCount := v.loadCount + 1 }) ∧
    SimpleEditor.handleTabChangeVideo t pid cn init v =
      SimpleEditor.reconcileVideo t pid cn init v := by
  refine ⟨?_, rfl⟩
  have key : ∀ u : String,
      (if v.src != u then ({ src := u, loadCount := v.loadCount + 1 } : SimpleEditor.VideoElem)
        else v)
        = (if v.src = u then v else { src := u, loadCount := v.loadCount + 1 }) := by
    intro u
    by_cases h : v.src = u <;> simp [h]
  have hurl : (if !SimpleEditor.hasBorder t && !SimpleEditor.hasAdjustments t then init
      else SimpleEditor.transformedVideoUrl t pid cn init)
      = SimpleEditor.claimC3Url t pid cn init := by
    simp only [SimpleEditor.claimC3Url]
    by_cases hc : (t.border.width = 0 ∧ t.adjustments.brightness = 0 ∧
        t.adjustments.contrast = 0 ∧ t.adjustments.saturation = 0 ∧
        t.adjustments.sepia = 0)
    · rw [if_pos ((SimpleEditor.noTransform_iff t hw).mpr hc), if_pos hc]
    · have hb : ¬ ((!SimpleEditor.hasBorder t && !SimpleEditor.hasAdjustments t) = true) :=
        fun h => hc ((SimpleEditor.noTransform_iff t hw).mp h)
      rw [if_neg hb, if_neg hc]
  calc SimpleEditor.reconcileVideo t pid cn init v
      = (if v.src != (if !SimpleEditor.hasBorder t && !SimpleEditor.hasAdjustments t then init
            else SimpleEditor.transformedVideoUrl t pid cn init) then
          { src := (if !SimpleEditor.hasBorder t && !SimpleEditor.hasAdjustments t then init
            else SimpleEditor.transformedVideoUrl t pid cn init),
            loadCount := v.loadCount + 1 }
        else v) := rfl
    _ = _ := by rw [hurl]; exact key _

/-- Witness for C3 at a concrete input: a state with a 5px border and an
element currently holding a different source, so the reconciler reloads. -/
theorem C3_reload_vs_restyle_witness :
    SimpleEditor.reconcileVideo SimpleEditor.initialTransformations
        (some "vid1") "demo" "init" { src := "old", loadCount := 0 } =
      (if ("old" : String) = SimpleEditor.claimC3Url SimpleEditor.initialTransformations
          (some "vid1") "demo" "init" then { src := "old", loadCount := 0 }
       else { src := SimpleEditor.claimC3Url SimpleEditor.initialTransformations
                (some "vid1") "demo" "init", loadCount := 1 }) ∧
    SimpleEditor.handleTabChangeVideo SimpleEditor.initialTransformations
        (some "vid1") "demo" "init" { src := "old", loadCount := 0 } =
      SimpleEditor.reconcileVideo SimpleEditor.initialTransformations
        (some "vid1") "demo" "init" { src := "old", loadCount := 0 } :=
  C3_reload_vs_restyle SimpleEditor.initialTransformations
    (some "vid1") "demo" "init" { src := "old", loadCount := 0 } (by decide)

/-- Appending to a fully taken prefix does not extend it when the appended
part starts by failing the predicate. -/
lemma takeWhile_takeWhile_append (p : Char → Bool) (l r : List Char)
    (hr : r.takeWhile p = []) :
    ((l.takeWhile p) ++ r).takeWhile p = l.takeWhile p := by
  induction l with
  | nil => simpa using hr
  | cons c cs ih =>
    by_cases hc : p c
    · simp [List.takeWhile_cons, hc, ih]
    · simp [List.takeWhile_cons, hc, hr]

/-- The query-free base of a string with a fresh query appended is the
query-free base of the original string. -/
lemma jsBeforeQuery_append (u suffix : String)
    (hs : suffix.data.takeWhile (fun c => c != '?') = []) :
    jsBeforeQuery (jsBeforeQuery u ++ suffix) = jsBeforeQuery u := by
  unfold jsBeforeQuery
  apply congrArg String.mk
  have hdata : (String.mk (u.data.takeWhile (fun c => c != '?')) ++ suffix).data
      = u.data.takeWhile (fun c => c != '?') ++ suffix.data := rfl
  rw [hdata]
  exact takeWhile_takeWhile_append _ _ _ hs

/-- String concatenation is associative. -/
lemma strAppend_assoc (a b c : String) : (a ++ b) ++ c = a ++ (b ++ c) := by
  cases a; cases b; cases c
  exact congrArg String.mk (List.append_assoc _ _ _)

/-- A list starting with a character that fails the predicate has empty
`takeWhile`. -/
lemma takeWhile_cons_false (p : Char → Bool) (c : Char) (l : List Char)
    (h : p c = false) : (c :: l).takeWhile p = [] := by
  simp [List.takeWhile_cons, h]

/-- The query suffix appended by `cleanUrl` starts with a question mark, so
its query-free base is empty. -/
lemma cleanUrl_suffix (now : Nat) :
    (("?f_mp4,vc_h264,q_auto&_t=" ++ toString now) : String).data.takeWhile
      (fun c => c != '?') = [] := by
  have h1 : (("?f_mp4,vc_h264,q_auto&_t=" ++ toString now) : String).data
      = '?' :: ("f_mp4,vc_h264,q_auto&_t=".data ++ (toString now).data) := rfl
  rw [h1]
  exact takeWhile_cons_false _ _ _ (by decide)

/-- The query suffix appended by `getFormattedUrl` starts with a question
mark, so its query-free base is empty. -/
lemma getFormattedUrl_suffix (now : Nat) :
    (("?f_mp4,vc_h264,q_40,fl_progressive&_t=" ++ toString now) : String).data.takeWhile
      (fun c => c != '?') = [] := by
  have h1 : (("?f_mp4,vc_h264,q_40,fl_progressive&_t=" ++ toString now) : String).data
      = '?' :: ("f_mp4,vc_h264,q_40,fl_progressive&_t=".data ++ (toString now).data) := rfl
  rw [h1]
  exact takeWhile_cons_false _ _ _ (by decide)

/-- For a non-empty URL, `cleanUrl` preserves the query-free base. -/
lemma cleanUrl_base (url : String) (now : Nat) (h : (url == "") = false) :
    jsBeforeQuery (VideoPlayer.cleanUrl url now) = jsBeforeQuery url := by
  unfold VideoPlayer.cleanUrl
  rw [if_neg (by simp [h]), strAppend_assoc]
  exact jsBeforeQuery_append url _ (cleanUrl_suffix now)

/-- For a non-empty URL, `getFormattedUrl` preserves the query-free base. -/
lemma getFormattedUrl_base (url : String) (now : Nat) (h : (url == "") = false) :
    jsBeforeQuery (FallbackVideoPlayer.getFormattedUrl url now) = jsBeforeQuery url := by
  unfold FallbackVideoPlayer.getFormattedUrl
  rw [if_neg (by simp [h]), strAppend_assoc]
  exact jsBeforeQuery_append url _ (getFormattedUrl_suffix now)

/-- `cleanUrl` never returns the empty string on a non-empty URL. -/
lemma cleanUrl_ne_empty (url : String) (now : Nat) (h : (url == "") = false) :
    VideoPlayer.cleanUrl url now ≠ "" := by
  unfold VideoPlayer.cleanUrl
  rw [if_neg (by simp [h])]
  intro hcontra
  have hdz := congrArg String.data hcontra
  rw [String.data_append, String.data_append] at hdz
  simp only [List.append_eq_nil] at hdz
  exact absurd hdz.1.2 (by decide)

/-- `getFormattedUrl` never returns the empty string on a non-empty URL. -/
lemma getFormattedUrl_ne_empty (url : String) (now : Nat) (h : (url == "") = false) :
    FallbackVideoPlayer.getFormattedUrl url now ≠ "" := by
  unfold FallbackVideoPlayer.getFormattedUrl
  rw [if_neg (by simp [h])]
  intro hcontra
  have hdz := congrArg String.data hcontra
  rw [String.data_append, String.data_append] at hdz
  simp only [List.append_eq_nil] at hdz
  exact absurd hdz.1.2 (by decide)

/-- C10: both playback URL formatters preserve the query-free base of their
input (the part before the first question mark), and re-applying a formatter
to its own output still preserves that base. -/
theorem C10_formatters_preserve_base (url : String) (now now2 : Nat) :
    jsBeforeQuery (VideoPlayer.cleanUrl url now) = jsBeforeQuery url ∧
    jsBeforeQuery (FallbackVideoPlayer.getFormattedUrl url now) = jsBeforeQuery url ∧
    jsBeforeQuery (VideoPlayer.cleanUrl (VideoPlayer.cleanUrl url now) now2)
      = jsBeforeQuery url ∧
    jsBeforeQuery (FallbackVideoPlayer.getFormattedUrl
        (FallbackVideoPlayer.getFormattedUrl url now) now2)
      = jsBeforeQuery url := by
  by_cases hu : url = ""
  · subst hu
    refine ⟨rfl, rfl, rfl, rfl⟩
  · have hu' : (url == "") = false := by simpa using hu
    have hc1 := cleanUrl_base url now hu'
    have hg1 := getFormattedUrl_base url now hu'
    have hc2 : (VideoPlayer.cleanUrl url now == "") = false := by
      simpa using cleanUrl_ne_empty url now hu'
    have hg2 : (FallbackVideoPlayer.getFormattedUrl url now == "") = false := by
      simpa using getFormattedUrl_ne_empty url now hu'
    refine ⟨hc1, hg1, ?_, ?_⟩
    · rw [cleanUrl_base _ now2 hc2, hc1]
    · rw [getFormattedUrl_base _ now2 hg2, hg1]


/-- C5: for every input URL that the browser URL parser accepts, the debug
helper returns exactly the fixed ordered list of eight fallback URLs built on
the query-free base of the input, and for every input that fails to parse it
returns the empty list. -/
theorem C5_alternative_urls (urlParse : String → Option CloudinaryDebug.URLRecord)
    (url : String) :
    CloudinaryDebug.generateAlternativeUrls urlParse url =
      if (urlParse url).isSome then
        [ jsBeforeQuery url ++ "?f_mp4,vc_h264,vc_auto,q_auto:low,fl_progressive",
          jsBeforeQuery url ++ "?f_mp4,vc_h264,w_640,h_360,q_auto:low,fl_progressive",
          jsBeforeQuery url ++ "?f_mp4,vc_h264,w_480,h_270,q_auto:low,fl_progressive",
          jsBeforeQuery url ++ "?f_mp4,vc_h264,q_auto:low",
          jsBeforeQuery url ++ "?f_mp4,vc_h264,q_60,fl_progressive",
          jsBeforeQuery url ++ "?f_mp4,vc_h264,w_640,fl_progressive",
          jsBeforeQuery url ++ "?f_auto,q_auto:low",
          jsBeforeQuery url ++ "?f_webm,vc_vp9,q_auto:low" ]
      else [] := by
  unfold CloudinaryDebug.generateAlternativeUrls CloudinaryDebug.parseCloudinaryUrl
  cases urlParse url <;> simp


/-- A nonempty middle component keeps a three-part concatenation nonempty. -/
lemma append3_ne_empty (a b c : String) (hb : b.data ≠ []) : a ++ b ++ c ≠ "" := by
  intro h
  have hd : (a.data ++ b.data) ++ c.data = [] := by
    have := congrArg String.data h
    rwa [String.data_append, String.data_append] at this
  simp only [List.append_eq_nil] at hd
  exact hb hd.1.2

/-- C1 (counterexample): after an upload that stores a `res.cloudinary.com`
secure URL, the memoised URL is the query-free secure URL plus only a
timestamp, the edit-tab element is handed the raw secure URL, and the
download button opens the timestamped URL — none of which contains the border
parameter that the action chain built from the current edit state (border
width 4) does produce. -/
theorem C1_counterexample :
    Editor.transformedVideoUrl Editor.defaultTransformations (some "video_123")
        (some "https://res.cloudinary.com/demo/video/upload/video_123.mp4")
        "demo" 0 100
      = some "https://res.cloudinary.com/demo/video/upload/video_123.mp4?_t=100" ∧
    Editor.editVideoSrc
        (some "https://res.cloudinary.com/demo/video/upload/video_123.mp4") none
        (Editor.transformedVideoUrl Editor.defaultTransformations (some "video_123")
          (some "https://res.cloudinary.com/demo/video/upload/video_123.mp4")
          "demo" 0 100)
      = some "https://res.cloudinary.com/demo/video/upload/video_123.mp4" ∧
    Editor.previewDownloadUrl
        (Editor.transformedVideoUrl Editor.defaultTransformations (some "video_123")
          (some "https://res.cloudinary.com/demo/video/upload/video_123.mp4")
          "demo" 0 100) none
        (some "https://res.cloudinary.com/demo/video/upload/video_123.mp4")
      = "https://res.cloudinary.com/demo/video/upload/video_123.mp4?_t=100" ∧
    (0 : Int) < Editor.defaultTransformations.border.width ∧
    jsIncludes (Editor.toURL "demo" "video_123"
        (Editor.buildActions Editor.defaultTransformations 0))
      "4px_solid_ffffff" = true ∧
    jsIncludes "https://res.cloudinary.com/demo/video/upload/video_123.mp4?_t=100"
      "4px_solid_ffffff" = false ∧
    jsIncludes "https://res.cloudinary.com/demo/video/upload/video_123.mp4"
      "4px_solid_ffffff" = false := by
  decide

/-- C1 (amended): whenever a public id and a secure URL containing
`res.cloudinary.com` are stored, the memoised URL is the query-free secure
URL with only a cache-busting timestamp, the playback element is handed the
raw secure URL (its fallback chain prefers `cloudinaryUrl`), and the download
button opens the timestamped query-free secure URL; the transformation URL is
not what playback or download deliver. -/
theorem C1_post_upload_urls (t : Editor.VideoTransformations)
    (p u : String) (cached : Option String) (cloudName : String)
    (d : Rat) (ts : Nat) (hp : p ≠ "") (hu : u ≠ "")
    (hres : jsIncludes u "res.cloudinary.com" = true) :
    Editor.transformedVideoUrl t (some p) (some u) cloudName d ts
      = some (jsBeforeQuery u ++ "?_t=" ++ toString ts) ∧
    Editor.editVideoSrc (some u) cached
        (Editor.transformedVideoUrl t (some p) (some u) cloudName d ts)
      = some u ∧
    Editor.previewDownloadUrl
        (Editor.transformedVideoUrl t (some p) (some u) cloudName d ts)
        cached (some u)
      = jsBeforeQuery u ++ "?_t=" ++ toString ts := by
  have hp' : (p == "") = false := by simpa using hp
  have hu' : (u == "") = false := by simpa using hu
  have htv : Editor.transformedVideoUrl t (some p) (some u) cloudName d ts
      = some (jsBeforeQuery u ++ "?_t=" ++ toString ts) := by
    simp [Editor.transformedVideoUrl, jsFalsyOpt, hp', hu', hres]
  refine ⟨htv, ?_, ?_⟩
  · simp [Editor.editVideoSrc, jsOrStr, jsFalsyOpt, hu']
  · have hne : jsBeforeQuery u ++ "?_t=" ++ toString ts ≠ "" :=
      append3_ne_empty _ _ _ (by decide)
    have hne' : ((jsBeforeQuery u ++ "?_t=" ++ toString ts) == "") = false := by
      simpa using hne
    simp [Editor.previewDownloadUrl, htv, jsOrStr, jsFalsyOpt, hne']

/-- Witness for C1's amended statement at a concrete post-upload state. -/
theorem C1_post_upload_urls_witness :
    Editor.transformedVideoUrl Editor.demoTransformations (some "video_123")
        (some "https://res.cloudinary.com/demo/video/upload/video_123.mp4")
        "demo" 10 100
      = some (jsBeforeQuery "https://res.cloudinary.com/demo/video/upload/video_123.mp4"
          ++ "?_t=" ++ toString 100) ∧
    Editor.editVideoSrc
        (some "https://res.cloudinary.com/demo/video/upload/video_123.mp4") none
        (Editor.transformedVideoUrl Editor.demoTransformations (some "video_123")
          (some "https://res.cloudinary.com/demo/video/upload/video_123.mp4")
          "demo" 10 100)
      = some "https://res.cloudinary.com/demo/video/upload/video_123.mp4" ∧
    Editor.previewDownloadUrl
        (Editor.transformedVideoUrl Editor.demoTransformations (some "video_123")
          (some "https://res.cloudinary.com/demo/video/upload/video_123.mp4")
          "demo" 10 100) none
        (some "https://res.cloudinary.com/demo/video/upload/video_123.mp4")
      = jsBeforeQuery "https://res.cloudinary.com/demo/video/upload/video_123.mp4"
          ++ "?_t=" ++ toString 100 :=
  C1_post_upload_urls Editor.demoTransformations "video_123"
    "https://res.cloudinary.com/demo/video/upload/video_123.mp4" none "demo" 10 100
    (by decide) (by decide) (by decide)

/-- C4 (counterexample): the standalone upload-helper component sends the
request for a 1000-byte `image/png` file although its MIME type does not
start with `video/`. -/
theorem C4_counterexample :
    (UploadHelper.uploadToCloudinary
        (some { name := "image.png", size := 1000, type := "image/png" })
        "demo").sendsRequest = true ∧
    jsStartsWith "image/png" "video/" = false := by
  decide

/-- C4 (amended): the editor's upload function sends the request exactly when
a file is selected, cloud name and API key are present, the size is at most
100 MB and the MIME type starts with `video/`; the standalone upload-helper
component checks only presence and size (no MIME check).  In both, a
validation failure leaves the uploading flag false and sets an error message,
and a send sets the uploading flag. -/
theorem C4_upload_validation (f : Option UploadFile) (cloudName apiKey : String) :
    ((Editor.uploadToCloudinary f cloudName apiKey).sendsRequest = true ↔
      (∃ file, f = some file ∧ cloudName ≠ "" ∧ apiKey ≠ "" ∧
        file.size ≤ 100 * 1024 * 1024 ∧ jsStartsWith file.type "video/" = true)) ∧
    ((UploadHelper.uploadToCloudinary f cloudName).sendsRequest = true ↔
      (∃ file, f = some file ∧ cloudName ≠ "" ∧ file.size ≤ 100 * 1024 * 1024)) ∧
    (Editor.uploadToCloudinary f cloudName apiKey).isUploading
      = (Editor.uploadToCloudinary f cloudName apiKey).sendsRequest ∧
    (Editor.uploadToCloudinary f cloudName apiKey).uploadError.isSome
      = !(Editor.uploadToCloudinary f cloudName apiKey).sendsRequest ∧
    (UploadHelper.uploadToCloudinary f cloudName).isUploading
      = (UploadHelper.uploadToCloudinary f cloudName).sendsRequest ∧
    (UploadHelper.uploadToCloudinary f cloudName).uploadError.isSome
      = !(UploadHelper.uploadToCloudinary f cloudName).sendsRequest := by
  cases f with
  | none => simp [Editor.uploadToCloudinary, UploadHelper.uploadToCloudinary]
  | some file =>
    unfold Editor.uploadToCloudinary UploadHelper.uploadToCloudinary
    by_cases hcn : cloudName = "" <;> by_cases hak : apiKey = "" <;>
      by_cases hsz : 100 * 1024 * 1024 < file.size <;>
      by_cases hty : jsStartsWith file.type "video/" = true <;>
      simp [hcn, hak, hsz, hty] <;> omega

/-- C6 (counterexample): at zero recorded attempts the claim predicts a retry
with the query-free base of the current URL, but on a standard Cloudinary URL
with cloud name `demo` the handler retries with a URL whose cloud segment is
the host label `res`, which differs from the query-free base. -/
theorem C6_counterexample :
    (Editor.onErrorEditTab "err" 77
        { activeTab := "edit",
          cachedVideoUrl := some "https://res.cloudinary.com/demo/video/upload/sample.mp4",
          cloudinaryUrl := none, videoLoadAttempts := 0, videoLoadError := none,
          debugMode := false,
          videoSrc := some "https://res.cloudinary.com/demo/video/upload/sample.mp4",
          videoLoadCount := 0 }).videoSrc
      = some "https://res.cloudinary.com/res/video/upload/sample.mp4" ∧
    jsBeforeQuery "https://res.cloudinary.com/demo/video/upload/sample.mp4"
      = "https://res.cloudinary.com/demo/video/upload/sample.mp4" ∧
    ("https://res.cloudinary.com/res/video/upload/sample.mp4" : String)
      ≠ "https://res.cloudinary.com/demo/video/upload/sample.mp4" := by
  refine ⟨rfl, rfl, ?_⟩
  decide

/-- C6 (amended): every playback error increments the attempt counter; when
the captured counter is below 5 and a source URL exists the element and the
cached URL are set to entry `attempts % 5` of the five-element list built on
the reconstructed base URL (`retryBaseUrl`, which rebuilds
`https://res.cloudinary.com/<first host label>/video/upload/<last path
segment>` rather than the query-free base); once the captured counter has
reached 5 debug mode is enabled and no retry is issued. -/
theorem C6_retry_characterization (errorMessage : String) (ts : Nat)
    (st : Editor.EditorState) :
    (Editor.onErrorEditTab errorMessage ts st).videoLoadAttempts
      = st.videoLoadAttempts + 1 ∧
    (Editor.onErrorEditTab errorMessage ts st).videoSrc
      = (if st.videoLoadAttempts < 5 ∧
            jsFalsyOpt (jsOrStr st.cachedVideoUrl st.cloudinaryUrl) = false then
          some ((Editor.formatUrls (Editor.retryBaseUrl
              ((jsOrStr st.cachedVideoUrl st.cloudinaryUrl).getD "")) ts).getD
            (st.videoLoadAttempts % 5) "")
        else st.videoSrc) ∧
    (Editor.onErrorEditTab errorMessage ts st).cachedVideoUrl
      = (if st.videoLoadAttempts < 5 ∧
            jsFalsyOpt (jsOrStr st.cachedVideoUrl st.cloudinaryUrl) = false then
          some ((Editor.formatUrls (Editor.retryBaseUrl
              ((jsOrStr st.cachedVideoUrl st.cloudinaryUrl).getD "")) ts).getD
            (st.videoLoadAttempts % 5) "")
        else st.cachedVideoUrl) ∧
    (Editor.onErrorEditTab errorMessage ts st).debugMode
      = (if 5 ≤ st.videoLoadAttempts then true else st.debugMode) := by
  unfold Editor.onErrorEditTab
  by_cases hc : (st.videoLoadAttempts < 5 ∧
      jsFalsyOpt (jsOrStr st.cachedVideoUrl st.cloudinaryUrl) = false)
  · have h5 : ¬ (5 ≤ st.videoLoadAttempts) := by omega
    simp [hc, h5, Editor.formatUrls]
  · by_cases h5 : 5 ≤ st.videoLoadAttempts
    · simp [hc, h5]
    · simp [hc, h5]

/-- C7: whatever the availability probe returns after a successful upload,
the editor switches to the edit tab with the cached source set: the
timestamped secure URL on a 2xx status, the first generated alternative URL
(or the secure URL when the list is empty) on any other status, and the
secure URL when the probe rejects. -/
theorem C7_post_upload_reaches_edit
    (urlParse : String → Option CloudinaryDebug.URLRecord)
    (secureUrl : String) (ts : Nat) (probe : Option (Nat × String))
    (st : Editor.EditorState) :
    (Editor.handleUploadProbe urlParse secureUrl ts probe st).activeTab = "edit" ∧
    (Editor.handleUploadProbe urlParse secureUrl ts probe st).cachedVideoUrl
      = some (match probe with
          | some (status, _) =>
            if 200 ≤ status ∧ status < 300 then
              secureUrl ++ "?_t=" ++ toString ts
            else
              (CloudinaryDebug.generateAlternativeUrls urlParse secureUrl).headD secureUrl
          | none => secureUrl) := by
  cases probe with
  | none => simp [Editor.handleUploadProbe]
  | some pr =>
    obtain ⟨status, cldErr⟩ := pr
    by_cases h2 : 200 ≤ status ∧ status < 300
    · simp [Editor.handleUploadProbe, h2]
    · cases hg : CloudinaryDebug.generateAlternativeUrls urlParse secureUrl <;>
        simp [Editor.handleUploadProbe, h2, hg]

/-- The action chain built from any transformation state never contains the
rotation action. -/
lemma rotate_not_mem_buildActions (t : Editor.VideoTransformations) (d : Rat)
    (a : Int) : Editor.CldAction.rotateByAngle a ∉ Editor.buildActions t d := by
  intro h
  cases hm : t.resize.mode <;>
    simp [Editor.buildActions, hm] at h

/-- C8 (counterexample): no transformation state makes the URL builder apply
a rotation action. -/
theorem C8_counterexample :
    ¬ ∃ (t : Editor.VideoTransformations) (d : Rat) (a : Int),
        Editor.CldAction.rotateByAngle a ∈ Editor.buildActions t d :=
  fun ⟨t, d, a, h⟩ => rotate_not_mem_buildActions t d a h

set_option maxRecDepth 8192 in
/-- C8 (amended): the transformation state records border (width, colour,
corner radius), resize (including crop mode), colour adjustments, text
overlay and trim; the builder maps border (its value emitted verbatim,
without a `bo_` prefix), resize, the adjustments and the text overlay into
the transformation string, as the demonstration state shows, but the trim
offsets are discarded by the SDK call and no `so_`/`eo_` parameter is
emitted; no rotation field exists and no state produces a rotation
action. -/
theorem C8_transformation_coverage :
    (∀ (t : Editor.VideoTransformations) (d : Rat) (a : Int),
      Editor.CldAction.rotateByAngle a ∉ Editor.buildActions t d) ∧
    (jsIncludes (Editor.toURL "demo" "vid1"
        (Editor.buildActions Editor.demoTransformations 10))
      "3px_solid_00ff00" = true ∧
    jsIncludes (Editor.toURL "demo" "vid1"
        (Editor.buildActions Editor.demoTransformations 10)) "r_12" = true ∧
    jsIncludes (Editor.toURL "demo" "vid1"
        (Editor.buildActions Editor.demoTransformations 10))
      "c_crop,h_360,w_640" = true ∧
    jsIncludes (Editor.toURL "demo" "vid1"
        (Editor.buildActions Editor.demoTransformations 10))
      "e_brightness:10" = true ∧
    jsIncludes (Editor.toURL "demo" "vid1"
        (Editor.buildActions Editor.demoTransformations 10))
      "e_contrast:-5" = true ∧
    jsIncludes (Editor.toURL "demo" "vid1"
        (Editor.buildActions Editor.demoTransformations 10))
      "e_saturation:20" = true ∧
    jsIncludes (Editor.toURL "demo" "vid1"
        (Editor.buildActions Editor.demoTransformations 10)) "e_sepia:30" = true ∧
    jsIncludes (Editor.toURL "demo" "vid1"
        (Editor.buildActions Editor.demoTransformations 10)) "e_grayscale" = true ∧
    jsIncludes (Editor.toURL "demo" "vid1"
        (Editor.buildActions Editor.demoTransformations 10))
      "l_text:Arial_40_bold:Hello%20World" = true ∧
    jsIncludes (Editor.toURL "demo" "vid1"
        (Editor.buildActions Editor.demoTransformations 10)) "g_south" = true ∧
    jsIncludes (Editor.toURL "demo" "vid1"
        (Editor.buildActions Editor.demoTransformations 10)) "so_" = false ∧
    jsIncludes (Editor.toURL "demo" "vid1"
        (Editor.buildActions Editor.demoTransformations 10)) "eo_" = false) :=
  ⟨fun t d a => rotate_not_mem_buildActions t d a, by decide⟩

/-- C9 (counterexample): two invocations of the editor URL builder with equal
transformation state, public id, cloud name and video duration but different
mount timestamps produce different URLs. -/
theorem C9_counterexample :
    Editor.getTransformedVideoUrl Editor.defaultTransformations (some "video_123")
        none "demo" 10 100
      ≠ Editor.getTransformedVideoUrl Editor.defaultTransformations (some "video_123")
        none "demo" 10 200 := by
  decide

/-- C9 (amended): the editor URL builder factors as a function of exactly the
transformation state, public id, cloud name and video duration, followed by a
cache-busting suffix determined by the component's mount timestamp — purity
holds once that timestamp is counted among the inputs. -/
theorem C9_builder_factorization (t : Editor.VideoTransformations) (p : String)
    (curl : Option String) (cloudName : String) (d : Rat) (ts : Nat)
    (hp : p ≠ "") :
    Editor.getTransformedVideoUrl t (some p) curl cloudName d ts
      = some (Editor.toURL cloudName p (Editor.buildActions t d) ++
          "&_t=" ++ toString ts) := by
  have hp' : (p == "") = false := by simpa using hp
  simp [Editor.getTransformedVideoUrl, hp']

/-- Witness for C9's amended statement at a concrete input. -/
theorem C9_builder_factorization_witness :
    Editor.getTransformedVideoUrl Editor.defaultTransformations (some "video_123")
        none "demo" 10 100
      = some (Editor.toURL "demo" "video_123"
          (Editor.buildActions Editor.defaultTransformations 10) ++
          "&_t=" ++ toString 100) :=
  C9_builder_factorization Editor.defaultTransformations "video_123" none
    "demo" 10 100 (by decide)


